import Mathlib

/-!
Verification development for `source/system.cpp` of CppBenchmark: a shallow
embedding of the `CppBenchmark::System` query surface and proofs about it.

Modelling conventions:
* Machine integers are `Nat`/`Int` with explicit `% 2 ^ w` where the C++
  arithmetic wraps (DWORD multiplication, unsigned-to-int64 conversion).
* Each query function takes an explicit environment value describing the
  OS-provided data it reads (registry values, `/proc/cpuinfo` content,
  processor-topology entries, memory status), with one constructor per
  platform family of the `#if` split in the source.
* `std::regex_match` with the patterns `"model name\s*: (.*)"` and
  `"cpu MHz\s*: (.*)"` is modelled at ASCII fidelity: full-string match,
  `\s` as ASCII whitespace, `.` as any character but a line terminator.
  Since `:` is not a whitespace character, the greedy `\s*` run is the
  unique possible one, so maximal munch needs no backtracking.
-/

namespace CppBenchmark

/-! ## Windows processor-topology model (`GetLogicalProcessorInformation`) -/

/-- `LOGICAL_PROCESSOR_RELATIONSHIP` enum value `RelationProcessorCore` (winnt.h). -/
def RelationProcessorCore : Nat := 0

/-- `LOGICAL_PROCESSOR_RELATIONSHIP` enum value `RelationNumaNode` (winnt.h). -/
def RelationNumaNode : Nat := 1

/-- `LOGICAL_PROCESSOR_RELATIONSHIP` enum value `RelationCache` (winnt.h). -/
def RelationCache : Nat := 2

/-- `LOGICAL_PROCESSOR_RELATIONSHIP` enum value `RelationProcessorPackage` (winnt.h). -/
def RelationProcessorPackage : Nat := 3

/-- One `SYSTEM_LOGICAL_PROCESSOR_INFORMATION` entry: a 64-bit `ULONG_PTR`
affinity mask and the relationship tag (an arbitrary enum integer, since the
source's `switch` has a `default` arm for unrecognised values). -/
structure SLPIEntry where
  ProcessorMask : Nat
  Relationship : Nat
deriving DecidableEq

/-- Outcome of the buffer-allocation loop of `System::CpuTotalCores`
(system.cpp lines 88-107): either an allocation/query failure, or a
successfully retrieved list of topology entries. -/
inductive WinTopologyQuery where
  | queryFailure : WinTopologyQuery
  | querySuccess (entries : List SLPIEntry) : WinTopologyQuery
deriving DecidableEq

/-! ## `Internals::CountSetBits` (system.cpp lines 30-43) -/

/-- The body of the `for` loop of `Internals::CountSetBits`: `i` iterations
remain, `pBitTest` is the current probe bit, `dwBitSetCount` the accumulator.
Each iteration adds 1 when `pBitMask & pBitTest` is nonzero and halves the
probe, exactly as in the source. -/
def CountSetBitsLoop (pBitMask : Nat) : Nat → Nat → Nat → Nat
  | 0, _, dwBitSetCount => dwBitSetCount
  | i + 1, pBitTest, dwBitSetCount =>
      CountSetBitsLoop pBitMask i (pBitTest / 2)
        (dwBitSetCount + (if pBitMask &&& pBitTest ≠ 0 then 1 else 0))

/-- `Internals::CountSetBits` for a 64-bit `ULONG_PTR`: the probe starts at
`1 << 63` and the loop runs for `i = 0 .. 63`, i.e. 64 iterations. -/
def CountSetBits (pBitMask : Nat) : Nat :=
  CountSetBitsLoop pBitMask 64 (2 ^ 63) 0

/-- Mathematical population count (the number of set bits of a natural
number), used as the specification that `CountSetBits` is checked against. -/
def popCount (n : Nat) : Nat :=
  if h : n = 0 then 0 else n % 2 + popCount (n / 2)
decreasing_by exact Nat.div_lt_self (Nat.pos_of_ne_zero h) (by norm_num)

/-- Number of set bits of `m` among bit positions `0 .. k-1`, written with the
same `&&&`-test as the loop. -/
def popCountBelow (m : Nat) : Nat → Nat
  | 0 => 0
  | k + 1 => popCountBelow m k + (if m &&& 2 ^ k ≠ 0 then 1 else 0)

/-! ## `System::CpuTotalCores` (system.cpp lines 85-140) -/

/-- The entry-iteration loop of the Windows branch of `System::CpuTotalCores`
(lines 113-130): a `RelationProcessorCore` entry adds the set-bit count of its
mask to the logical total and 1 to the physical total; `RelationNumaNode`,
`RelationCache` and `RelationProcessorPackage` entries are skipped; any other
tag makes the whole query return `(-1, -1)` immediately. -/
def CpuTotalCoresLoop : List SLPIEntry → Int → Int → Int × Int
  | [], logical, physical => (logical, physical)
  | pCurrent :: rest, logical, physical =>
      if pCurrent.Relationship = RelationProcessorCore then
        CpuTotalCoresLoop rest (logical + (CountSetBits pCurrent.ProcessorMask : Int))
          (physical + 1)
      else if pCurrent.Relationship = RelationNumaNode ∨
          pCurrent.Relationship = RelationCache ∨
          pCurrent.Relationship = RelationProcessorPackage then
        CpuTotalCoresLoop rest logical physical
      else
        (-1, -1)

/-- Environment of `System::CpuTotalCores`: on Windows the topology-query
outcome, on Unix the value returned by `sysconf(_SC_NPROCESSORS_ONLN)`
(a C `long`, `-1` on failure). -/
inductive CoreEnv where
  | windows (q : WinTopologyQuery) : CoreEnv
  | unix (processors : Int) : CoreEnv
deriving DecidableEq

/-- `System::CpuTotalCores`. Windows: `(-1, -1)` on allocation/query failure,
otherwise the loop over the entries starting from `(0, 0)`. Unix: the
`sysconf` value as both components (lines 136-138). -/
def CpuTotalCores : CoreEnv → Int × Int
  | .windows .queryFailure => (-1, -1)
  | .windows (.querySuccess entries) => CpuTotalCoresLoop entries 0 0
  | .unix processors => (processors, processors)

/-- `System::CpuLogicalCores`: first component of `CpuTotalCores`. -/
def CpuLogicalCores (env : CoreEnv) : Int :=
  (CpuTotalCores env).1

/-- `System::CpuPhysicalCores`: second component of `CpuTotalCores`. -/
def CpuPhysicalCores (env : CoreEnv) : Int :=
  (CpuTotalCores env).2

/-- `System::CpuHyperThreading` (lines 168-172): true exactly when the two
components of `CpuTotalCores` differ. -/
def CpuHyperThreading (env : CoreEnv) : Bool :=
  let cores := CpuTotalCores env
  cores.1 != cores.2

/-! ## Regex model for `"LABEL\s*: (.*)"` full-string matching -/

/-- ASCII characters matched by ECMAScript `\s` (space, tab, line feed,
vertical tab, form feed, carriage return). -/
def regexSpace (c : Char) : Bool :=
  c = ' ' || c = '\t' || c = '\n' || c = '\x0b' || c = '\x0c' || c = '\r'

/-- ASCII line terminators, which ECMAScript `.` does not match. -/
def regexLineTerminator (c : Char) : Bool :=
  c = '\n' || c = '\r'

/-- Strip `p` from the front of `cs`, or fail. -/
def stripLabel : List Char → List Char → Option (List Char)
  | [], cs => some cs
  | _ :: _, [] => none
  | p :: ps, c :: cs => if c = p then stripLabel ps cs else none

/-- Full-string match of the pattern `LABEL\s*: (.*)` against `content`
(the semantics of `std::regex_match` with the source's two patterns):
the content must be the label, then a whitespace run, then `": "`, then the
captured text, which may not contain a line terminator (so a multi-line
content never matches). Returns the capture group. -/
def regexMatchField (label content : List Char) : Option (List Char) :=
  match stripLabel label content with
  | none => none
  | some rest =>
      match rest.dropWhile regexSpace with
      | ':' :: ' ' :: captured =>
          if captured.all (fun c => ¬ regexLineTerminator c) then some captured
          else none
      | _ => none

/-- String-level wrapper of `regexMatchField`. -/
def regexMatchFieldStr (label content : String) : Option String :=
  (regexMatchField label.data content.data).map fun cs => String.mk cs

/-! ## `System::CpuArchitecture` (system.cpp lines 49-73) -/

/-- Environment of `System::CpuArchitecture`: on Windows the registry string
`ProcessorNameString` (`none` when opening the key or querying the value
fails), on Unix the content of `/proc/cpuinfo` (`none` when the file is
unreadable, in which case the `ifstream` read yields the empty string). -/
inductive ArchEnv where
  | windows (processorNameString : Option String) : ArchEnv
  | unix (procCpuinfo : Option String) : ArchEnv
deriving DecidableEq

/-- `System::CpuArchitecture`. Windows: the registry string, or `"<unknown>"`
when either registry call fails. Unix: the capture of a full-content match of
`"model name\s*: (.*)"` against the file content, or `"<unknown>"`. -/
def CpuArchitecture : ArchEnv → String
  | .windows none => "<unknown>"
  | .windows (some name) => name
  | .unix file =>
      let cpuinfo := file.getD ""
      match regexMatchFieldStr "model name" cpuinfo with
      | some captured => captured
      | none => "<unknown>"

/-! ## `System::CpuClockSpeed` (system.cpp lines 142-166) -/

/-- C `atoi` applied to the digits of `ds`, accumulator form: consume decimal
digits until the first non-digit. -/
def atoiDigits : List Char → Nat → Nat
  | [], acc => acc
  | c :: cs, acc =>
      if c.isDigit then atoiDigits cs (acc * 10 + (c.toNat - 48)) else acc

/-- C `atoi`: skip leading whitespace, read an optional sign, then decimal
digits up to the first non-digit; no digits yields 0. (The `int` overflow of
`atoi` is undefined behaviour and left unmodelled.) -/
def atoi (s : String) : Int :=
  match s.data.dropWhile (fun c => regexSpace c) with
  | '-' :: ds => - (atoiDigits ds 0 : Int)
  | '+' :: ds => (atoiDigits ds 0 : Int)
  | ds => (atoiDigits ds 0 : Int)

/-- Environment of `System::CpuClockSpeed`: on Windows the DWORD registry
value `~MHz` (`none` when either registry call fails), on Unix the content of
`/proc/cpuinfo` as for `ArchEnv`. -/
inductive ClockEnv where
  | windows (mhz : Option Nat) : ClockEnv
  | unix (procCpuinfo : Option String) : ClockEnv
deriving DecidableEq

/-- `System::CpuClockSpeed`. Windows: `-1` on registry failure, else
`dwMHz * 1000 * 1000` computed in 32-bit unsigned (DWORD) arithmetic and then
widened to `int64_t` (line 156). Unix: the capture of a full-content match of
`"cpu MHz\s*: (.*)"` fed to `atoi`, or `-1` when the match fails (line 164) —
note the Unix branch performs no MHz-to-Hz conversion. -/
def CpuClockSpeed : ClockEnv → Int
  | .windows none => -1
  | .windows (some dwMHz) => ((dwMHz * 1000 * 1000) % 2 ^ 32 : Nat)
  | .unix file =>
      let cpuinfo := file.getD ""
      match regexMatchFieldStr "cpu MHz" cpuinfo with
      | some captured => atoi captured
      | none => -1

/-! ## `System::RamTotal` / `System::RamFree` (system.cpp lines 174-198) -/

/-- The two fields of `MEMORYSTATUSEX` the source reads (64-bit unsigned). -/
structure MEMORYSTATUSEX where
  ullTotalPhys : Nat
  ullAvailPhys : Nat
deriving DecidableEq

/-- The two fields of `struct sysinfo` the source reads (unsigned long). -/
structure SysinfoData where
  totalram : Nat
  freeram : Nat
deriving DecidableEq

/-- Conversion of a 64-bit unsigned value to `int64_t` (two's-complement
wrap-around). -/
def int64OfUInt64 (n : Nat) : Int :=
  if n % 2 ^ 64 < 2 ^ 63 then ((n % 2 ^ 64 : Nat) : Int)
  else ((n % 2 ^ 64 : Nat) : Int) - 2 ^ 64

/-- Environment of `System::RamTotal`/`System::RamFree`: on Windows the
success flag returned by `GlobalMemoryStatusEx` together with the contents of
the `MEMORYSTATUSEX` struct after the call (on failure the fields keep
indeterminate values — the source never checks the flag); on Unix the
`sysinfo` outcome (`none` = nonzero return). -/
inductive RamEnv where
  | windows (succeeded : Bool) (status : MEMORYSTATUSEX) : RamEnv
  | unix (res : Option SysinfoData) : RamEnv
deriving DecidableEq

/-- `System::RamTotal`. Windows (lines 177-180): returns
`status.ullTotalPhys` without inspecting the `GlobalMemoryStatusEx` result.
Unix (lines 182-183): `si.totalram` when `sysinfo` returns 0, else `-1`. -/
def RamTotal : RamEnv → Int
  | .windows _ status => int64OfUInt64 status.ullTotalPhys
  | .unix (some si) => int64OfUInt64 si.totalram
  | .unix none => -1

/-- `System::RamFree`. Windows (lines 190-193): returns
`status.ullAvailPhys` without inspecting the `GlobalMemoryStatusEx` result.
Unix (lines 195-196): `si.freeram` when `sysinfo` returns 0, else `-1`. -/
def RamFree : RamEnv → Int
  | .windows _ status => int64OfUInt64 status.ullAvailPhys
  | .unix (some si) => int64OfUInt64 si.freeram
  | .unix none => -1

/-! ## Spec-side comparison definitions -/

/-- Split a character list into lines at `'\n'`. -/
def splitLinesAux : List Char → List Char → List (List Char)
  | [], acc => [acc.reverse]
  | '\n' :: rest, acc => acc.reverse :: splitLinesAux rest []
  | c :: rest, acc => splitLinesAux rest (c :: acc)

/-- Modelled from the spec: "matching a model name field via pattern match on
the first line found" — the value of the first line of the content that
matches the `"model name\s*: (.*)"` pattern. This is the spec's reading of
the Unix architecture lookup, to be compared with the source's whole-content
`std::regex_match`. -/
def specFirstModelNameLine (content : String) : Option String :=
  ((splitLinesAux content.data []).filterMap
    (fun line => regexMatchField ("model name".data) line)).head?.map
    fun cs => String.mk cs

/-! ## Correctness of `CountSetBits` -/

lemma and_two_pow_ne_zero_iff (m j : Nat) : (m &&& 2 ^ j ≠ 0) ↔ m.testBit j = true := by
  rw [Nat.and_two_pow]
  cases h : m.testBit j <;> simp [h]

lemma popCountBelow_zero_mask : ∀ k, popCountBelow 0 k = 0 := by
  intro k
  induction k with
  | zero => rfl
  | succ k ih => simp [popCountBelow, ih]

lemma popCountBelow_shift (m : Nat) : ∀ k, popCountBelow m (k + 1) = (if m &&& 1 ≠ 0 then 1 else 0) + popCountBelow (m / 2) k := by
  intro k
  induction k with
  | zero => simp [popCountBelow]
  | succ k ih =>
      have h1 := and_two_pow_ne_zero_iff m (k + 1)
      rw [Nat.testBit_add_one] at h1
      have h2 := and_two_pow_ne_zero_iff (m / 2) k
      have hb : (if m &&& 2 ^ (k + 1) ≠ 0 then 1 else 0) = (if m / 2 &&& 2 ^ k ≠ 0 then 1 else 0) := by
        by_cases ht : (m / 2).testBit k = true
        · rw [if_pos (h1.mpr ht), if_pos (h2.mpr ht)]
        · rw [if_neg (fun hc => ht (h1.mp hc)), if_neg (fun hc => ht (h2.mp hc))]
      calc popCountBelow m (k + 1 + 1)
          = popCountBelow m (k + 1) + (if m &&& 2 ^ (k + 1) ≠ 0 then 1 else 0) := rfl
        _ = ((if m &&& 1 ≠ 0 then 1 else 0) + popCountBelow (m / 2) k)
              + (if m / 2 &&& 2 ^ k ≠ 0 then 1 else 0) := by rw [ih, hb]
        _ = (if m &&& 1 ≠ 0 then 1 else 0) + popCountBelow (m / 2) (k + 1) := by
              simp only [popCountBelow]
              omega

lemma popCount_zero : popCount 0 = 0 := by
  rw [popCount]
  simp

lemma popCount_of_ne_zero (n : Nat) (h : n ≠ 0) : popCount n = n % 2 + popCount (n / 2) := by
  rw [popCount]
  simp [h]

lemma popCountBelow_eq_popCount : ∀ k m, m < 2 ^ k → popCountBelow m k = popCount m := by
  intro k
  induction k with
  | zero =>
      intro m hm
      have h0 : m = 0 := by simpa using hm
      subst h0
      simp [popCountBelow, popCount_zero]
  | succ k ih =>
      intro m hm
      rcases Nat.eq_zero_or_pos m with h0 | h0
      · subst h0
        rw [popCount_zero, popCountBelow_zero_mask]
      · rw [popCountBelow_shift, popCount_of_ne_zero m (by omega)]
        have hdiv : m / 2 < 2 ^ k := by
          have h2 : (2 : Nat) ^ (k + 1) = 2 ^ k * 2 := pow_succ 2 k
          omega
        rw [ih (m / 2) hdiv]
        have hmod : (if m &&& 1 ≠ 0 then 1 else 0) = m % 2 := by
          rw [Nat.and_one_is_mod]
          rcases Nat.mod_two_eq_zero_or_one m with h | h <;> simp [h]
        rw [hmod]

lemma countSetBitsLoop_eq (m : Nat) : ∀ k acc, CountSetBitsLoop m (k + 1) (2 ^ k) acc = acc + popCountBelow m (k + 1) := by
  intro k
  induction k with
  | zero =>
      intro acc
      simp [CountSetBitsLoop, popCountBelow]
  | succ k ih =>
      intro acc
      have hdiv : (2 : Nat) ^ (k + 1) / 2 = 2 ^ k := by
        rw [pow_succ]
        exact Nat.mul_div_cancel _ two_pos
      have hstep : CountSetBitsLoop m (k + 1 + 1) (2 ^ (k + 1)) acc
          = CountSetBitsLoop m (k + 1) (2 ^ k)
              (acc + (if m &&& 2 ^ (k + 1) ≠ 0 then 1 else 0)) := by
        simp only [CountSetBitsLoop]
        rw [hdiv]
      rw [hstep, ih]
      simp only [popCountBelow]
      omega

lemma countSetBits_eq_popCount (m : Nat) (hm : m < 2 ^ 64) : CountSetBits m = popCount m := by
  have h := countSetBitsLoop_eq m 63 0
  have h64 : CountSetBits m = CountSetBitsLoop m (63 + 1) (2 ^ 63) 0 := rfl
  rw [h64, h, Nat.zero_add]
  exact popCountBelow_eq_popCount (63 + 1) m hm

lemma popCount_eq_zero_iff : ∀ m, popCount m = 0 ↔ m = 0 := by
  intro m
  induction m using Nat.strong_induction_on with
  | _ m ih =>
      rcases Nat.eq_zero_or_pos m with h0 | h0
      · subst h0
        simp [popCount_zero]
      · rw [popCount_of_ne_zero m (by omega)]
        constructor
        · intro h
          have h2 : popCount (m / 2) = 0 := by omega
          have h3 : m / 2 = 0 := (ih (m / 2) (Nat.div_lt_self h0 one_lt_two)).mp h2
          omega
        · intro h
          omega

lemma popCount_pos (m : Nat) (hm : 0 < m) : 0 < popCount m := by
  rcases Nat.eq_zero_or_pos (popCount m) with h | h
  · exact absurd ((popCount_eq_zero_iff m).mp h) (by omega)
  · exact h

lemma countSetBits_pos (m : Nat) (h0 : 0 < m) (hm : m < 2 ^ 64) : 1 ≤ CountSetBits m := by
  rw [countSetBits_eq_popCount m hm]
  exact popCount_pos m h0

/-! ## Lemmas about the topology-enumeration loop -/

lemma cpuTotalCoresLoop_invariant :
    ∀ (entries : List SLPIEntry),
      (∀ e ∈ entries, e.Relationship = RelationProcessorCore → 1 ≤ CountSetBits e.ProcessorMask) →
      ∀ logical physical : Int, 0 ≤ physical → physical ≤ logical →
        CpuTotalCoresLoop entries logical physical = (-1, -1) ∨
        (0 ≤ (CpuTotalCoresLoop entries logical physical).2 ∧
          (CpuTotalCoresLoop entries logical physical).2 ≤ (CpuTotalCoresLoop entries logical physical).1) := by
  intro entries
  induction entries with
  | nil =>
      intro _ l p h0 h1
      right
      exact ⟨h0, h1⟩
  | cons e rest ih =>
      intro hm l p h0 h1
      have hrest : ∀ x ∈ rest, x.Relationship = RelationProcessorCore → 1 ≤ CountSetBits x.ProcessorMask :=
        fun x hx => hm x (List.mem_cons_of_mem e hx)
      by_cases hc : e.Relationship = RelationProcessorCore
      · have hcsb := hm e (List.mem_cons_self e rest) hc
        have hcast : (1 : Int) ≤ (CountSetBits e.ProcessorMask : Int) := by exact_mod_cast hcsb
        simp only [CpuTotalCoresLoop]
        rw [if_pos hc]
        exact ih hrest _ _ (by omega) (by omega)
      · by_cases hs : e.Relationship = RelationNumaNode ∨ e.Relationship = RelationCache ∨
            e.Relationship = RelationProcessorPackage
        · simp only [CpuTotalCoresLoop]
          rw [if_neg hc, if_pos hs]
          exact ih hrest l p h0 h1
        · simp only [CpuTotalCoresLoop]
          rw [if_neg hc, if_neg hs]
          left
          rfl

lemma cpuTotalCoresLoop_unknown :
    ∀ (entries : List SLPIEntry) (e : SLPIEntry), e ∈ entries →
      e.Relationship ≠ RelationProcessorCore → e.Relationship ≠ RelationNumaNode →
      e.Relationship ≠ RelationCache → e.Relationship ≠ RelationProcessorPackage →
      ∀ logical physical : Int, CpuTotalCoresLoop entries logical physical = (-1, -1) := by
  intro entries
  induction entries with
  | nil =>
      intro e he
      exact absurd he (List.not_mem_nil e)
  | cons a rest ih =>
      intro e he h1 h2 h3 h4 l p
      rcases List.mem_cons.mp he with rfl | hmem
      · simp only [CpuTotalCoresLoop]
        rw [if_neg h1, if_neg (fun hc => hc.elim h2 (fun hc2 => hc2.elim h3 h4))]
      · by_cases hc : a.Relationship = RelationProcessorCore
        · simp only [CpuTotalCoresLoop]
          rw [if_pos hc]
          exact ih e hmem h1 h2 h3 h4 _ _
        · by_cases hs : a.Relationship = RelationNumaNode ∨ a.Relationship = RelationCache ∨
              a.Relationship = RelationProcessorPackage
          · simp only [CpuTotalCoresLoop]
            rw [if_neg hc, if_pos hs]
            exact ih e hmem h1 h2 h3 h4 l p
          · simp only [CpuTotalCoresLoop]
            rw [if_neg hc, if_neg hs]

/-! ## Claim theorems about the core enumeration -/

/-- OS contract on the inputs of `System::CpuTotalCores`: on Windows every
`RelationProcessorCore` entry carries a nonzero 64-bit affinity mask (as the
`GetLogicalProcessorInformation` documentation guarantees), and on Unix
`sysconf` returns `-1` or a count, never another negative value. -/
def ValidCoreEnv : CoreEnv → Prop
  | .windows .queryFailure => True
  | .windows (.querySuccess entries) =>
      ∀ e ∈ entries, e.Relationship = RelationProcessorCore →
        0 < e.ProcessorMask ∧ e.ProcessorMask < 2 ^ 64
  | .unix processors => -1 ≤ processors

/-- Claim C2: every outcome of `System::CpuTotalCores` satisfies
logical ≥ physical ≥ 0, or both components are the sentinel `-1` together;
no outcome mixes one sentinel and one real value. -/
theorem claim_c2_core_count_invariant (env : CoreEnv) (h : ValidCoreEnv env) :
    (0 ≤ CpuPhysicalCores env ∧ CpuPhysicalCores env ≤ CpuLogicalCores env) ∨
    (CpuLogicalCores env = -1 ∧ CpuPhysicalCores env = -1) := by
  cases env with
  | windows q =>
      cases q with
      | queryFailure =>
          right
          exact ⟨rfl, rfl⟩
      | querySuccess entries =>
          have hv : ∀ e ∈ entries, e.Relationship = RelationProcessorCore →
              0 < e.ProcessorMask ∧ e.ProcessorMask < 2 ^ 64 := h
          have hm : ∀ e ∈ entries, e.Relationship = RelationProcessorCore →
              1 ≤ CountSetBits e.ProcessorMask := by
            intro e he hc
            exact countSetBits_pos _ (hv e he hc).1 (hv e he hc).2
          have hinv := cpuTotalCoresLoop_invariant entries hm 0 0 (le_refl 0) (le_refl 0)
          simp only [CpuLogicalCores, CpuPhysicalCores, CpuTotalCores]
          rcases hinv with hfail | hok
          · right
            rw [hfail]
            exact ⟨rfl, rfl⟩
          · left
            exact ⟨hok.1, hok.2⟩
  | unix processors =>
      have hp : -1 ≤ processors := h
      simp only [CpuLogicalCores, CpuPhysicalCores, CpuTotalCores]
      rcases lt_or_le processors 0 with hneg | hpos
      · right
        exact ⟨by omega, by omega⟩
      · left
        exact ⟨hpos, le_refl processors⟩

/-- Witness for C2: a Windows topology with one dual-thread core and one
cache entry satisfies the OS contract and the invariant. -/
theorem claim_c2_witness :
    ValidCoreEnv (.windows (.querySuccess [⟨3, 0⟩, ⟨0, 2⟩])) ∧
    ((0 ≤ CpuPhysicalCores (.windows (.querySuccess [⟨3, 0⟩, ⟨0, 2⟩])) ∧
        CpuPhysicalCores (.windows (.querySuccess [⟨3, 0⟩, ⟨0, 2⟩])) ≤
          CpuLogicalCores (.windows (.querySuccess [⟨3, 0⟩, ⟨0, 2⟩]))) ∨
      (CpuLogicalCores (.windows (.querySuccess [⟨3, 0⟩, ⟨0, 2⟩])) = -1 ∧
        CpuPhysicalCores (.windows (.querySuccess [⟨3, 0⟩, ⟨0, 2⟩])) = -1)) :=
  ⟨by
    show ∀ e ∈ [(⟨3, 0⟩ : SLPIEntry), ⟨0, 2⟩], e.Relationship = RelationProcessorCore →
      0 < e.ProcessorMask ∧ e.ProcessorMask < 2 ^ 64
    decide,
   claim_c2_core_count_invariant _ (by
    show ∀ e ∈ [(⟨3, 0⟩ : SLPIEntry), ⟨0, 2⟩], e.Relationship = RelationProcessorCore →
      0 < e.ProcessorMask ∧ e.ProcessorMask < 2 ^ 64
    decide)⟩

/-- Claim C3: `System::CpuHyperThreading` is true iff the two components of
`System::CpuTotalCores` differ, and is false whenever they are equal. -/
theorem claim_c3_hyper_threading_iff (env : CoreEnv) :
    (CpuHyperThreading env = true ↔ CpuLogicalCores env ≠ CpuPhysicalCores env) ∧
    (CpuLogicalCores env = CpuPhysicalCores env → CpuHyperThreading env = false) := by
  have key : CpuHyperThreading env = ((CpuTotalCores env).1 != (CpuTotalCores env).2) := rfl
  have hl : CpuLogicalCores env = (CpuTotalCores env).1 := rfl
  have hp : CpuPhysicalCores env = (CpuTotalCores env).2 := rfl
  constructor
  · rw [key, hl, hp]
    exact bne_iff_ne
  · intro h
    rw [hl, hp] at h
    rw [key]
    simp [h]

/-- Witness for C3: a Unix environment with four online processors reports
equal counts and no hyper-threading. -/
theorem claim_c3_witness : CpuHyperThreading (.unix 4) = false :=
  (claim_c3_hyper_threading_iff (.unix 4)).2 rfl

/-- Claim C4: on Windows, a topology entry whose relationship tag is none of
processor-core, NUMA-node, cache or package makes the whole query return
`(-1, -1)`, never a partial count. -/
theorem claim_c4_unknown_tag_fails (entries : List SLPIEntry) (e : SLPIEntry)
    (he : e ∈ entries)
    (h1 : e.Relationship ≠ RelationProcessorCore) (h2 : e.Relationship ≠ RelationNumaNode)
    (h3 : e.Relationship ≠ RelationCache) (h4 : e.Relationship ≠ RelationProcessorPackage) :
    CpuTotalCores (.windows (.querySuccess entries)) = (-1, -1) := by
  simp only [CpuTotalCores]
  exact cpuTotalCoresLoop_unknown entries e he h1 h2 h3 h4 0 0

/-- Witness for C4: a core entry followed by an entry with the unrecognised
tag 4 (`RelationGroup`) makes the query fail despite the processed core. -/
theorem claim_c4_witness :
    (⟨0, 4⟩ : SLPIEntry) ∈ [(⟨3, 0⟩ : SLPIEntry), ⟨0, 4⟩] ∧
    CpuTotalCores (.windows (.querySuccess [⟨3, 0⟩, ⟨0, 4⟩])) = (-1, -1) :=
  ⟨List.mem_cons_of_mem _ (List.mem_cons_self _ _),
   claim_c4_unknown_tag_fails _ ⟨0, 4⟩ (List.mem_cons_of_mem _ (List.mem_cons_self _ _))
     (by decide) (by decide) (by decide) (by decide)⟩

/-- Claim C7: on Unix, `System::CpuTotalCores` reports the online-processor
count as both components, so the two components are always equal there. -/
theorem claim_c7_unix_equal_components (processors : Int) :
    CpuTotalCores (.unix processors) = (processors, processors) ∧
    CpuLogicalCores (.unix processors) = CpuPhysicalCores (.unix processors) :=
  ⟨rfl, rfl⟩

/-- Claim C9: for every 64-bit input bit mask, `Internals::CountSetBits`
returns exactly the population count of the mask. -/
theorem claim_c9_countSetBits_popcount (mask : Nat) (hmask : mask < 2 ^ 64) :
    CountSetBits mask = popCount mask :=
  countSetBits_eq_popCount mask hmask

/-- Witness for C9 at mask 11 (binary 1011). -/
theorem claim_c9_witness : 11 < 2 ^ 64 ∧ CountSetBits 11 = popCount 11 :=
  ⟨by norm_num, claim_c9_countSetBits_popcount 11 (by norm_num)⟩

/-- Claim C10: when `System::CpuTotalCores` fails with `(-1, -1)`,
`System::CpuHyperThreading` returns false, indistinguishable from a
non-hyper-threaded machine. -/
theorem claim_c10_failure_reads_false (env : CoreEnv)
    (h : CpuTotalCores env = (-1, -1)) : CpuHyperThreading env = false := by
  have key : CpuHyperThreading env = ((CpuTotalCores env).1 != (CpuTotalCores env).2) := rfl
  rw [key, h]
  rfl

/-- Witness for C10: the Unix `sysconf` failure value `-1`. -/
theorem claim_c10_witness :
    CpuTotalCores (.unix (-1)) = (-1, -1) ∧ CpuHyperThreading (.unix (-1)) = false :=
  ⟨rfl, claim_c10_failure_reads_false _ rfl⟩

/-! ## Claim theorems about clock speed, architecture and RAM -/

lemma cpuClockSpeed_unix (file : Option String) :
    CpuClockSpeed (.unix file) =
      (match regexMatchFieldStr "cpu MHz" (file.getD "") with
        | some captured => atoi captured
        | none => -1) := rfl

lemma cpuArchitecture_unix (file : Option String) :
    CpuArchitecture (.unix file) =
      (match regexMatchFieldStr "model name" (file.getD "") with
        | some captured => captured
        | none => "<unknown>") := rfl

/-- Counterexample to C1: on the Unix family a successfully parsed `cpu MHz`
field is returned as the plain MHz integer (here 2400), which is neither the
claimed MHz-to-Hz conversion (2,400,000,000) nor the failure sentinel. -/
theorem claim_c1_counterexample :
    CpuClockSpeed (.unix (some "cpu MHz\t\t: 2400.000")) = 2400 ∧
    (2400 : Int) ≠ 2400 * 1000000 ∧ (2400 : Int) ≠ -1 := by
  refine ⟨by decide, by norm_num, by norm_num⟩

/-- Amended C1: on the Windows family the DWORD MHz value is multiplied by
1,000,000 in 32-bit unsigned arithmetic (exact whenever the MHz value is
below 4295), with `-1` on registry failure; on the Unix family the function
returns the `atoi` of the captured text when the whole content matches
`"cpu MHz\s*: (.*)"` — no MHz-to-Hz conversion — and `-1` otherwise. -/
theorem claim_c1_amended_clock_speed (dwMHz : Nat) (hm : dwMHz < 4295)
    (content captured : String)
    (hcap : regexMatchFieldStr "cpu MHz" content = some captured) :
    CpuClockSpeed (.windows (some dwMHz)) = (dwMHz : Int) * 1000000 ∧
    CpuClockSpeed (.windows none) = -1 ∧
    CpuClockSpeed (.unix (some content)) = atoi captured ∧
    (∀ c2 : String, regexMatchFieldStr "cpu MHz" c2 = none →
      CpuClockSpeed (.unix (some c2)) = -1) ∧
    CpuClockSpeed (.unix none) = -1 := by
  refine ⟨?_, rfl, ?_, ?_, ?_⟩
  · have h32 : (2 : Nat) ^ 32 = 4294967296 := by norm_num
    have hlt : dwMHz * 1000 * 1000 < 2 ^ 32 := by omega
    show ((dwMHz * 1000 * 1000) % 2 ^ 32 : Nat) = (dwMHz : Int) * 1000000
    rw [Nat.mod_eq_of_lt hlt]
    push_cast
    ring
  · rw [cpuClockSpeed_unix]
    simp [hcap]
  · intro c2 h2
    rw [cpuClockSpeed_unix]
    simp [h2]
  · rw [cpuClockSpeed_unix]
    have hnone : regexMatchFieldStr "cpu MHz" "" = none := by decide
    simp [hnone]

/-- Witness for C1 (amended): MHz value 2400 and a single-line cpuinfo. -/
theorem claim_c1_witness :
    CpuClockSpeed (.windows (some 2400)) = (2400 : Int) * 1000000 ∧
    CpuClockSpeed (.unix (some "cpu MHz\t\t: 2400.000")) = atoi "2400.000" :=
  ⟨(claim_c1_amended_clock_speed 2400 (by norm_num) "cpu MHz\t\t: 2400.000" "2400.000"
      (by decide)).1,
   (claim_c1_amended_clock_speed 2400 (by norm_num) "cpu MHz\t\t: 2400.000" "2400.000"
      (by decide)).2.2.1⟩

/-- Counterexample to C5: a readable multi-line cpuinfo contains a
`model name` line whose field value is `Intel(R) Core(TM)`, yet the source's
whole-content `std::regex_match` fails and the function returns the
`"<unknown>"` sentinel instead of that value. -/
theorem claim_c5_counterexample :
    specFirstModelNameLine "processor\t: 0\nmodel name\t: Intel(R) Core(TM)\nflags\t: fpu" =
      some "Intel(R) Core(TM)" ∧
    CpuArchitecture
        (.unix (some "processor\t: 0\nmodel name\t: Intel(R) Core(TM)\nflags\t: fpu")) =
      "<unknown>" ∧
    ("<unknown>" : String) ≠ "Intel(R) Core(TM)" := by
  refine ⟨by decide, by decide, by decide⟩

/-- Amended C5: on the Unix family the matched text is returned exactly when
the entire content matches `"model name\s*: (.*)"` (so the content is a
single such line); whenever the whole-content match fails — even if some
line of the content carries the field — or the source is unreadable, the
`"<unknown>"` sentinel is returned. -/
theorem claim_c5_amended_architecture (content captured : String)
    (hcap : regexMatchFieldStr "model name" content = some captured) :
    CpuArchitecture (.unix (some content)) = captured ∧
    (∀ c2 : String, regexMatchFieldStr "model name" c2 = none →
      CpuArchitecture (.unix (some c2)) = "<unknown>") ∧
    CpuArchitecture (.unix none) = "<unknown>" := by
  refine ⟨?_, ?_, rfl⟩
  · rw [cpuArchitecture_unix]
    simp [hcap]
  · intro c2 h2
    rw [cpuArchitecture_unix]
    simp [h2]

/-- Witness for C5 (amended): a single-line content that fully matches. -/
theorem claim_c5_witness :
    CpuArchitecture (.unix (some "model name\t: Intel(R) Core(TM)")) = "Intel(R) Core(TM)" :=
  (claim_c5_amended_architecture "model name\t: Intel(R) Core(TM)" "Intel(R) Core(TM)"
    (by decide)).1

/-- Counterexample to C6: the content `"model name : "` fully matches the
pattern with an empty capture, so `System::CpuArchitecture` returns the
empty string. -/
theorem claim_c6_counterexample :
    CpuArchitecture (.unix (some "model name : ")) = "" := by
  decide

/-- Amended C6: `System::CpuArchitecture` returns a non-empty string except
when the OS-provided descriptor itself is empty — an empty Windows registry
string, or a Unix content matching the pattern with an empty capture; the
`"<unknown>"` sentinel itself is never empty. -/
theorem claim_c6_amended_nonempty (env : ArchEnv) (h : CpuArchitecture env = "") :
    env = .windows (some "") ∨
    ∃ content, env = .unix (some content) ∧
      regexMatchFieldStr "model name" content = some "" := by
  cases env with
  | windows reg =>
      cases reg with
      | none => exact absurd h (by decide)
      | some name =>
          left
          have hname : name = "" := h
          rw [hname]
  | unix file =>
      cases file with
      | none => exact absurd h (by decide)
      | some content =>
          right
          refine ⟨content, rfl, ?_⟩
          have h2 : (match regexMatchFieldStr "model name" content with
              | some c => c
              | none => "<unknown>") = "" := h
          cases hm : regexMatchFieldStr "model name" content with
          | none =>
              rw [hm] at h2
              exact absurd h2 (by decide)
          | some cap =>
              rw [hm] at h2
              have h3 : cap = "" := h2
              rw [h3]

/-- Witness for C6 (amended): an empty Windows registry descriptor. -/
theorem claim_c6_witness :
    ArchEnv.windows (some "") = ArchEnv.windows (some "") ∨
    ∃ content, ArchEnv.windows (some "") = ArchEnv.unix (some content) ∧
      regexMatchFieldStr "model name" content = some "" :=
  claim_c6_amended_nonempty (.windows (some "")) rfl

/-- Counterexample to C8: on Windows, a failed `GlobalMemoryStatusEx` call
leaves the struct's (indeterminate) field values — here 42 and 7 — and
`System::RamTotal`/`System::RamFree` return those values rather than `-1`. -/
theorem claim_c8_counterexample :
    RamTotal (.windows false ⟨42, 7⟩) = 42 ∧ RamFree (.windows false ⟨42, 7⟩) = 7 ∧
    (42 : Int) ≠ -1 ∧ (7 : Int) ≠ -1 := by
  refine ⟨by decide, by decide, by norm_num, by norm_num⟩

/-- Amended C8: on the Unix family `sysinfo` failure yields `-1` and success
yields the byte counts; on the Windows family the success flag of
`GlobalMemoryStatusEx` is ignored — the functions return the struct fields
regardless of it (never `-1` on failure). -/
theorem claim_c8_amended_ram (b : Bool) (st : MEMORYSTATUSEX) (si : SysinfoData) :
    RamTotal (.windows b st) = int64OfUInt64 st.ullTotalPhys ∧
    RamFree (.windows b st) = int64OfUInt64 st.ullAvailPhys ∧
    RamTotal (.windows b st) = RamTotal (.windows true st) ∧
    RamFree (.windows b st) = RamFree (.windows true st) ∧
    RamTotal (.unix (some si)) = int64OfUInt64 si.totalram ∧
    RamFree (.unix (some si)) = int64OfUInt64 si.freeram ∧
    RamTotal (.unix none) = -1 ∧
    RamFree (.unix none) = -1 :=
  ⟨rfl, rfl, rfl, rfl, rfl, rfl, rfl, rfl⟩

end CppBenchmark
